import Mathlib

/-!
Shallow embedding of the tbot command-dispatch server (src/server.go) and of
the router (Mux) / dispatcher parts that the spec describes, together with
proofs of the spec's claims.

Conventions of the embedding:
* Go errors (`error`, with `nil` meaning success) become `Option Err`
  (`none` = nil error), and fallible constructors become `Except Err _`.
* The closable inbound update channel returned by `GetUpdatesChan` is
  modelled as the finite list of updates it yields before it closes.
* Handler side effects (replies, middleware enter/exit) are modelled as the
  list of effects an invocation produces.
* Go maps are modelled as functions into `Option`.
-/

namespace Tbot

/-- Go `error` values (the message); `Option Err` with `none` = nil error. -/
abbrev Err := String

/-- Opaque stand-in for `*http.Client`; only identity matters to the claims. -/
structure HttpClient where
  clientId : Nat
  deriving Repr, DecidableEq

/-- Go `http.DefaultClient`. -/
def defaultClient : HttpClient := ⟨0⟩

/-- Message type tags of `model.Message`. Modelled from the usage in
src/server.go (`model.MessageText`) and the spec's outbound operations. -/
inductive MessageType where
  | text
  | file
  deriving Repr, DecidableEq

/-- Go `model.Message`: the outbound message object handed to the adapter.
Fields are the ones src/server.go populates (`Type`, `ChatID`, `Data`). -/
structure ModelMessage where
  type : MessageType
  chatID : Int
  data : String
  deriving Repr, DecidableEq

/-- Modelled from the spec: an inbound event envelope carries the raw command
text or a file payload and the chat id (`model.Update` is not under src/). -/
structure Update where
  chatID : Int
  text : String
  file : Option String
  deriving Repr, DecidableEq

/-- Go `Message` wraps one inbound update (src/server.go line 89 builds
`&Message{Message: update}`). -/
structure Message where
  message : Update
  deriving Repr, DecidableEq

/-- Observable side effects of a handler invocation. -/
inductive Effect where
  | reply (text : String)
  | enter (name : String)
  | exit (name : String)
  deriving Repr, DecidableEq

/-- Go `HandlerFunction`: a handler consumes a message and produces its
observable effects. -/
abbrev HandlerFunction := Message → List Effect

/-- Go `m.Reply(text)` sends one reply to the message's chat. -/
def Message.reply (_ : Message) (text : String) : List Effect :=
  [Effect.reply text]

/-- Modelled from the spec: the command path of an event is the leading
whitespace-separated token of its raw text (command extraction lives in the
Mux, which is not under src/). -/
def Message.command (m : Message) : String :=
  String.mk (m.message.text.toList.takeWhile (fun c => c ≠ ' '))

/-- An event is a file upload when it carries a file payload. -/
def Message.isFileUpload (m : Message) : Bool :=
  m.message.file.isSome

/-- Go `Middleware` takes a HandlerFunction and returns a HandlerFunction
(src/server.go line 22). -/
abbrev Middleware := HandlerFunction → HandlerFunction

/-- The external `adapter.BotAdapter`: an abstract transport adapter.
`getUpdatesChan` is the finite stream of updates delivered before the
channel closes, or the acquisition error. -/
structure Bot where
  getUpdatesChan : String → String → Except Err (List Update)
  send : ModelMessage → Option Err
  sendRaw : String → List (String × String) → Option Err

/-- A registered route: one handler plus its optional description. -/
structure RouteEntry where
  f : HandlerFunction
  description : List String

/-- Modelled from the spec: the router (DefaultMux is not under src/) owns
the path→handler table, the alias table, the optional default and file
handlers, and per-chat conversation state keyed by chat id. Maps are
functions into `Option` (Go maps have unique keys). The shape of the
conversation data is a collaborator concern; a `String` stands in for it. -/
structure Mux where
  routes : String → Option RouteEntry
  aliases : String → Option String
  defaultHandler : Option HandlerFunction
  fileHandler : Option HandlerFunction
  convState : Int → Option String

/-- Go `NewDefaultMux()`: an empty router. -/
def NewDefaultMux : Mux where
  routes := fun _ => none
  aliases := fun _ => none
  defaultHandler := none
  fileHandler := none
  convState := fun _ => none

/-- Modelled from the spec: `HandleFunc` registers/overwrites the route at
`path`; re-registration replaces, never duplicates. -/
def Mux.handleFunc (mux : Mux) (path : String) (handler : HandlerFunction)
    (description : List String) : Mux :=
  { mux with routes := fun q => if q = path then some ⟨handler, description⟩ else mux.routes q }

/-- Modelled from the spec: sets the single file-upload handler, replacing
any previous one. -/
def Mux.handleFile (mux : Mux) (handler : HandlerFunction) : Mux :=
  { mux with fileHandler := some handler }

/-- Modelled from the spec: sets the single fallback handler, replacing any
previous one. -/
def Mux.handleDefault (mux : Mux) (handler : HandlerFunction) : Mux :=
  { mux with defaultHandler := some handler }

/-- Modelled from the spec: records each alias as pointing to the canonical
route path, without eager validation (last write wins). -/
def Mux.setAlias (mux : Mux) (route : String) (aliases : List String) : Mux :=
  { mux with aliases := fun q => if q ∈ aliases then some route else mux.aliases q }

/-- Modelled from the spec: `Reset(chatID)` clears conversation state for
one chat id. -/
def Mux.reset (mux : Mux) (chatID : Int) : Mux :=
  { mux with convState := fun c => if c = chatID then none else mux.convState c }

/-- Modelled from the spec: `Resolve(event) → handler`. A file upload
bypasses path resolution and uses the file handler; otherwise the canonical
route table is consulted first, then the alias table (one level), then the
default handler; `none` means the event is dropped. -/
def Mux.resolve (mux : Mux) (m : Message) : Option HandlerFunction :=
  if m.isFileUpload then
    match mux.fileHandler with
    | some h => some h
    | none => mux.defaultHandler
  else
    match mux.routes m.command with
    | some entry => some entry.f
    | none =>
      match mux.aliases m.command with
      | some canonical =>
        match mux.routes canonical with
        | some entry => some entry.f
        | none => mux.defaultHandler
      | none => mux.defaultHandler

/-- Modelled from the spec: the dispatcher composes the middleware list
around the terminal handler as nested wrappers, first-registered outermost:
`m1 (m2 (... (mn h)))` (the composition loop in processMessage is not under
src/). -/
def composeMiddlewares (ms : List Middleware) (h : HandlerFunction) : HandlerFunction :=
  ms.foldr (fun m acc => m acc) h

/-- An instrumented middleware that records entering before and exiting
after running the next handler in the chain. -/
def traceMW (name : String) : Middleware :=
  fun next m => Effect.enter name :: next m ++ [Effect.exit name]

/-- Go `Server` (src/server.go lines 11-18). The `bot` field is `none` while
the adapter has not been created yet (Go nil interface). -/
structure Server where
  mux : Mux
  httpClient : HttpClient
  middlewares : List Middleware
  webhookURL : String
  listenAddr : String
  bot : Option Bot

/-- Go `ServerOption` is a functional option for Server. -/
abbrev ServerOption := Server → Server

/-- Go `WithWebhook(url, addr)`. -/
def WithWebhook (url : String) (addr : String) : ServerOption :=
  fun s => { s with webhookURL := url, listenAddr := addr }

/-- Go `WithMux(m)`. -/
def WithMux (m : Mux) : ServerOption :=
  fun s => { s with mux := m }

/-- Go `WithHttpClient(client)`. -/
def WithHttpClient (client : HttpClient) : ServerOption :=
  fun s => { s with httpClient := client }

/-- The server literal NewServer starts from: default mux, default http
client, and zero values for the remaining fields. -/
def initialServer : Server where
  mux := NewDefaultMux
  httpClient := defaultClient
  middlewares := []
  webhookURL := ""
  listenAddr := ""
  bot := none

/-- Application of the functional options, in order. -/
def applyOptions (options : List ServerOption) (s : Server) : Server :=
  options.foldl (fun s o => o s) s

/-- Modelled from the spec: the built-in `/help` handler (`HelpHandler` is
not under src/); its behaviour is opaque to the routing claims. -/
def helpHandler : HandlerFunction := fun _ => []

/-- Go `HandleFunc` delegates to the current Mux (src/server.go lines 94-97). -/
def Server.handleFunc (s : Server) (path : String) (handler : HandlerFunction)
    (description : List String) : Server :=
  { s with mux := s.mux.handleFunc path handler description }

/-- Go `NewServer(token, options...)` (src/server.go lines 56-75): build the
default server, apply the options in order, create the bot adapter with the
resulting http client (returning its error on failure), store the adapter
and register the `/help` route. `createBot` abstracts the external
`adapter.CreateBot`. -/
def NewServer (createBot : String → HttpClient → Except Err Bot)
    (token : String) (options : List ServerOption) : Except Err Server :=
  let server := applyOptions options initialServer
  match createBot token server.httpClient with
  | .error e => .error e
  | .ok tbot =>
    let server := { server with bot := some tbot }
    .ok (server.handleFunc "/help" helpHandler [])

/-- Go `AddMiddleware` adds new Middleware for server (src/server.go 78-80). -/
def Server.addMiddleware (s : Server) (mid : Middleware) : Server :=
  { s with middlewares := s.middlewares ++ [mid] }

/-- Go `ListenAndServe` (src/server.go 83-92): acquire the update stream
(returning the acquisition error on failure, with nothing dispatched),
spawn one task per update until the stream closes, then return a nil
error. The result is the returned error paired with the list of messages
dispatched to tasks, in stream order. -/
def Server.listenAndServe (s : Server) : Option Err × List Message :=
  match s.bot with
  | none => (some "nil bot adapter", [])
  | some b =>
    match b.getUpdatesChan s.webhookURL s.listenAddr with
    | .error e => (some e, [])
    | .ok updates => (none, updates.map fun u => { message := u })

/-- Go `Handle(path, reply, description...)` (src/server.go 101-106): shortcut
registering a handler that replies with the static text. -/
def Server.handle (s : Server) (path : String) (reply : String)
    (description : List String) : Server :=
  s.handleFunc path (fun m => m.reply reply) description

/-- Go `HandleFile` delegates to the current Mux. -/
def Server.handleFile (s : Server) (handler : HandlerFunction)
    (_description : List String) : Server :=
  { s with mux := s.mux.handleFile handler }

/-- Go `HandleDefault` delegates to the current Mux. -/
def Server.handleDefault (s : Server) (handler : HandlerFunction)
    (_description : List String) : Server :=
  { s with mux := s.mux.handleDefault handler }

/-- Go `SetAlias` delegates to the current Mux. -/
def Server.setAlias (s : Server) (route : String) (aliases : List String) : Server :=
  { s with mux := s.mux.setAlias route aliases }

/-- Go `Send(chatID, text)` (src/server.go 122-124): sends one text message
through the adapter and returns its result. -/
def Server.send (s : Server) (chatID : Int) (text : String) : Option Err :=
  match s.bot with
  | some b => b.send { type := MessageType.text, chatID := chatID, data := text }
  | none => some "nil bot adapter"

/-- Go `SendMessage(m)` (src/server.go 128-130). -/
def Server.sendMessage (s : Server) (m : ModelMessage) : Option Err :=
  match s.bot with
  | some b => b.send m
  | none => some "nil bot adapter"

/-- Go `SendRaw(endpoint, params)` (src/server.go 133-135). -/
def Server.sendRaw (s : Server) (endpoint : String)
    (params : List (String × String)) : Option Err :=
  match s.bot with
  | some b => b.sendRaw endpoint params
  | none => some "nil bot adapter"

/-- Go `Reset(chatID)` delegates to the current Mux (src/server.go 137-139). -/
def Server.reset (s : Server) (chatID : Int) : Server :=
  { s with mux := s.mux.reset chatID }

/-- Modelled from the spec: the dispatcher resolves a handler via the
router, wraps it with the middleware chain and invokes it; `none` means the
event was dropped (processMessage is not under src/). -/
def Server.processMessage (s : Server) (m : Message) : Option (List Effect) :=
  match s.mux.resolve m with
  | some h => some (composeMiddlewares s.middlewares h m)
  | none => none


attribute [ext] Mux Server

/-- A helper adapter whose update stream closes immediately and whose sends
always succeed. -/
def okBot : Bot where
  getUpdatesChan := fun _ _ => Except.ok []
  send := fun _ => none
  sendRaw := fun _ _ => none

/-- A server wired to `okBot`. -/
def okServer : Server := { initialServer with bot := some okBot }

/-- A helper adapter whose stream acquisition fails. -/
def failBot : Bot where
  getUpdatesChan := fun _ _ => Except.error "acquire failed"
  send := fun _ => none
  sendRaw := fun _ _ => none

/-- A server wired to `failBot`. -/
def failServer : Server := { initialServer with bot := some failBot }

/-- C1 counterexample: on an adapter whose update stream closes immediately,
ListenAndServe dispatches nothing and returns a nil error — it does NOT
surface the stream closure as an error, contrary to the claim. -/
theorem listenAndServe_nil_error_on_stream_closure :
    okServer.listenAndServe = (none, []) ∧
    ∀ e : Err, okServer.listenAndServe.1 ≠ some e := by
  refine ⟨rfl, fun e h => ?_⟩
  exact Option.noConfusion h

/-- C1 (amended): when acquisition of the update stream fails,
ListenAndServe returns that error without dispatching any event; when the
stream closes after yielding its updates, ListenAndServe stops dispatching
(exactly the stream's updates are dispatched) and returns a nil error. -/
theorem listenAndServe_transport (s : Server) (b : Bot) (hb : s.bot = some b) :
    (∀ e, b.getUpdatesChan s.webhookURL s.listenAddr = Except.error e →
      s.listenAndServe = (some e, [])) ∧
    (∀ us, b.getUpdatesChan s.webhookURL s.listenAddr = Except.ok us →
      s.listenAndServe = (none, us.map fun u => { message := u })) := by
  constructor <;> intro x hx <;> simp [Server.listenAndServe, hb, hx]

/-- Witness for the amended C1 theorem at concrete adapters. -/
theorem listenAndServe_transport_witness :
    failServer.listenAndServe = (some "acquire failed", []) ∧
    okServer.listenAndServe = (none, []) :=
  ⟨(listenAndServe_transport failServer failBot rfl).1 "acquire failed" rfl,
   (listenAndServe_transport okServer okBot rfl).2 [] rfl⟩

/-- Registering middlewares one by one with AddMiddleware accumulates them
in registration order. -/
theorem foldl_addMiddleware (ms : List Middleware) (s : Server) :
    (ms.foldl Server.addMiddleware s).middlewares = s.middlewares ++ ms := by
  induction ms generalizing s with
  | nil => simp
  | cons m rest ih =>
    simp [List.foldl_cons, ih, Server.addMiddleware, List.append_assoc]

/-- Composing instrumented middlewares yields the nested enter/exit trace:
enters in registration order, then the terminal handler, then exits in
reverse registration order. -/
theorem composeMiddlewares_trace (ns : List String) (h : HandlerFunction) (m : Message) :
    composeMiddlewares (ns.map traceMW) h m =
      ns.map Effect.enter ++ h m ++ ns.reverse.map Effect.exit := by
  induction ns with
  | nil => simp [composeMiddlewares]
  | cons n rest ih =>
    have hstep :
        composeMiddlewares ((n :: rest).map traceMW) h m =
          Effect.enter n :: (composeMiddlewares (rest.map traceMW) h m ++ [Effect.exit n]) := rfl
    rw [hstep, ih]
    simp [List.append_assoc]

/-- C2: the handler the dispatcher invokes is the middleware list composed
around the resolved handler as nested wrappers, first-registered outermost;
for middlewares registered via AddMiddleware in order ns, instrumented
enter/exit wrappers produce the trace: enters in registration order, the
terminal handler, exits in reverse order (first registered regains control
last). -/
theorem middleware_first_registered_outermost
    (s : Server) (msg : Message) (h : HandlerFunction) (ns : List String)
    (hres : s.mux.resolve msg = some h) :
    s.processMessage msg = some (composeMiddlewares s.middlewares h msg) ∧
    ((ns.map traceMW).foldl Server.addMiddleware
        { s with middlewares := [] }).middlewares = ns.map traceMW ∧
    composeMiddlewares (ns.map traceMW) h msg =
      ns.map Effect.enter ++ h msg ++ ns.reverse.map Effect.exit := by
  refine ⟨?_, ?_, composeMiddlewares_trace ns h msg⟩
  · simp [Server.processMessage, hres]
  · simp [foldl_addMiddleware]

/-- A concrete terminal handler used in witnesses. -/
def greetHandler : HandlerFunction := fun _ => [Effect.reply "greetings"]

/-- A server with the single route `/start` → `greetHandler`. -/
def routedServer : Server := initialServer.handleFunc "/start" greetHandler []

/-- Witness for C2: middlewares [log, auth] around `greetHandler` run as
log-enter, auth-enter, handler, auth-exit, log-exit. -/
theorem middleware_first_registered_outermost_witness :
    composeMiddlewares (["log", "auth"].map traceMW) greetHandler ⟨⟨1, "/start", none⟩⟩ =
      [Effect.enter "log", Effect.enter "auth", Effect.reply "greetings",
        Effect.exit "auth", Effect.exit "log"] := by
  have happ := (middleware_first_registered_outermost routedServer ⟨⟨1, "/start", none⟩⟩
    greetHandler ["log", "auth"] rfl).2.2
  simpa [greetHandler] using happ

/-- C4: Handle(p, r, d) registers via HandleFunc at path p a handler that,
for every message, replies with r and does nothing else. -/
theorem handle_registers_static_reply (s : Server) (p r : String) (d : List String) :
    s.handle p r d = s.handleFunc p (fun m => m.reply r) d ∧
    (s.handle p r d).mux.routes p = some ⟨fun _ => [Effect.reply r], d⟩ := by
  refine ⟨rfl, ?_⟩
  simp [Server.handle, Server.handleFunc, Mux.handleFunc, Message.reply]

/-- C5: AddMiddleware appends the new middleware at the end of the list,
keeps every previously registered middleware in place and in order, and
changes no other field of the server. -/
theorem addMiddleware_appendOnly (s : Server) (m : Middleware) :
    (s.addMiddleware m).middlewares = s.middlewares ++ [m] ∧
    (s.addMiddleware m).middlewares.take s.middlewares.length = s.middlewares ∧
    (s.addMiddleware m).mux = s.mux ∧
    (s.addMiddleware m).httpClient = s.httpClient ∧
    (s.addMiddleware m).webhookURL = s.webhookURL ∧
    (s.addMiddleware m).listenAddr = s.listenAddr ∧
    (s.addMiddleware m).bot = s.bot := by
  refine ⟨rfl, ?_, rfl, rfl, rfl, rfl, rfl⟩
  simp [Server.addMiddleware, List.take_left]

/-- C6: registering h1 then h2 at the same path p leaves exactly the same
route table as registering h2 alone: the single entry at p holds h2, and a
text event whose command is p resolves to h2. -/
theorem handleFunc_reregistration_replaces (s : Server) (p : String)
    (h1 h2 : HandlerFunction) (d1 d2 : List String) :
    (s.handleFunc p h1 d1).handleFunc p h2 d2 = s.handleFunc p h2 d2 ∧
    ((s.handleFunc p h1 d1).handleFunc p h2 d2).mux.routes p = some ⟨h2, d2⟩ ∧
    (∀ m : Message, m.isFileUpload = false → m.command = p →
      ((s.handleFunc p h1 d1).handleFunc p h2 d2).mux.resolve m = some h2) := by
  refine ⟨?_, ?_, ?_⟩
  · refine Server.ext ?_ rfl rfl rfl rfl rfl
    refine Mux.ext ?_ rfl rfl rfl rfl
    funext q
    by_cases hq : q = p <;> simp [Server.handleFunc, Mux.handleFunc, hq]
  · simp [Server.handleFunc, Mux.handleFunc]
  · intro m hf hc
    simp [Server.handleFunc, Mux.handleFunc, Mux.resolve, hf, hc]

/-- Witness for C6 at a concrete double registration of `/start`. -/
theorem handleFunc_reregistration_replaces_witness :
    ((initialServer.handleFunc "/start" (fun _ => [Effect.reply "one"]) []).handleFunc
        "/start" (fun _ => [Effect.reply "two"]) []).mux.resolve ⟨⟨7, "/start", none⟩⟩ =
      some (fun _ => [Effect.reply "two"]) :=
  (handleFunc_reregistration_replaces initialServer "/start"
    (fun _ => [Effect.reply "one"]) (fun _ => [Effect.reply "two"]) [] []).2.2
    ⟨⟨7, "/start", none⟩⟩ rfl rfl

/-- C7: Reset is idempotent — resetting a chat twice equals resetting it
once — and resetting a chat that has no conversation state is a no-op. -/
theorem reset_idempotent (s : Server) (c : Int) :
    (s.reset c).reset c = s.reset c ∧
    (s.mux.convState c = none → s.reset c = s) := by
  constructor
  · refine Server.ext ?_ rfl rfl rfl rfl rfl
    refine Mux.ext rfl rfl rfl rfl ?_
    funext x
    by_cases hx : x = c <;> simp [Server.reset, Mux.reset, hx]
  · intro h
    refine Server.ext ?_ rfl rfl rfl rfl rfl
    refine Mux.ext rfl rfl rfl rfl ?_
    funext x
    by_cases hx : x = c
    · subst hx; simp [Server.reset, Mux.reset, h]
    · simp [Server.reset, Mux.reset, hx]

/-- Witness for C7 on a server with no conversation state for chat 42. -/
theorem reset_idempotent_witness :
    (initialServer.reset 42).reset 42 = initialServer.reset 42 ∧
    initialServer.reset 42 = initialServer :=
  ⟨(reset_idempotent initialServer 42).1, (reset_idempotent initialServer 42).2 rfl⟩

/-- C8: Send(c, t) hands the adapter exactly one message — type text, chat
id c, data t — and returns exactly the adapter's result. -/
theorem send_passes_one_text_message (s : Server) (b : Bot) (c : Int) (t : String)
    (hb : s.bot = some b) :
    s.send c t = b.send { type := MessageType.text, chatID := c, data := t } ∧
    (∀ e : Err, s.send c t = some e ↔
      b.send { type := MessageType.text, chatID := c, data := t } = some e) := by
  simp [Server.send, hb]

/-- Witness for C8 at a concrete adapter whose send succeeds. -/
theorem send_passes_one_text_message_witness :
    okServer.send 42 "hi" = okBot.send { type := MessageType.text, chatID := 42, data := "hi" } :=
  (send_passes_one_text_message okServer okBot 42 "hi" rfl).1

/-- A bot-adapter constructor that always succeeds with `okBot`. -/
def okCreateBot : String → HttpClient → Except Err Bot := fun _ _ => Except.ok okBot

/-- A bot-adapter constructor that always fails. -/
def failCreateBot : String → HttpClient → Except Err Bot := fun _ _ => Except.error "create failed"

/-- The server NewServer returns for `okCreateBot` and no options. -/
def helpServer : Server :=
  Server.handleFunc { initialServer with bot := some okBot } "/help" helpHandler []

/-- C9: every server successfully returned by NewServer has the `/help`
route registered with the help handler, and resolves the command `/help`
to it. -/
theorem newServer_registers_help (cb : String → HttpClient → Except Err Bot)
    (token : String) (opts : List ServerOption) (s : Server)
    (hok : NewServer cb token opts = Except.ok s) :
    s.mux.routes "/help" = some ⟨helpHandler, []⟩ ∧
    ∀ c : Int, s.mux.resolve ⟨⟨c, "/help", none⟩⟩ = some helpHandler := by
  cases hcb : cb token (applyOptions opts initialServer).httpClient with
  | error e => simp [NewServer, hcb] at hok
  | ok b =>
    simp only [NewServer, hcb, Except.ok.injEq] at hok
    subst hok
    constructor
    · simp [Server.handleFunc, Mux.handleFunc]
    · intro c
      have hcmd : (Message.mk ⟨c, "/help", none⟩).command = "/help" := rfl
      simp [Server.handleFunc, Mux.handleFunc, Mux.resolve, Message.isFileUpload, hcmd]

/-- Witness for C9: a freshly constructed server resolves `/help`. -/
theorem newServer_registers_help_witness :
    helpServer.mux.resolve ⟨⟨0, "/help", none⟩⟩ = some helpHandler :=
  (newServer_registers_help okCreateBot "TOKEN" [] helpServer rfl).2 0

/-- C10: NewServer is atomic on failure — if adapter creation (run with the
http client produced by applying the options, in order, to the default
server) fails, NewServer returns exactly that error and no server; on
success it returns the optioned server with the created adapter stored and
`/help` registered; with no options the server keeps the default mux (plus
the `/help` route) and the default http client. -/
theorem newServer_atomic_on_failure (cb : String → HttpClient → Except Err Bot)
    (token : String) (opts : List ServerOption) :
    (∀ e, cb token (applyOptions opts initialServer).httpClient = Except.error e →
      NewServer cb token opts = Except.error e) ∧
    (∀ b, cb token (applyOptions opts initialServer).httpClient = Except.ok b →
      NewServer cb token opts =
        Except.ok (Server.handleFunc
          { applyOptions opts initialServer with bot := some b } "/help" helpHandler [])) ∧
    (∀ s, NewServer cb token [] = Except.ok s →
      s.httpClient = defaultClient ∧
      s.middlewares = [] ∧
      s.mux = NewDefaultMux.handleFunc "/help" helpHandler [] ∧
      ∃ b, cb token defaultClient = Except.ok b ∧ s.bot = some b) := by
  refine ⟨?_, ?_, ?_⟩
  · intro e he
    simp [NewServer, he]
  · intro b hb
    simp [NewServer, hb]
  · intro s hs
    cases hcb : cb token defaultClient with
    | error e =>
      have : cb token (applyOptions [] initialServer).httpClient = Except.error e := hcb
      simp [NewServer, this] at hs
    | ok b =>
      have hcb2 : cb token (applyOptions [] initialServer).httpClient = Except.ok b := hcb
      simp only [NewServer, hcb2, Except.ok.injEq] at hs
      subst hs
      exact ⟨rfl, rfl, rfl, b, rfl, rfl⟩

/-- Witness for C10 at a failing and at a succeeding adapter constructor. -/
theorem newServer_atomic_on_failure_witness :
    NewServer failCreateBot "TOKEN" [] = Except.error "create failed" ∧
    NewServer okCreateBot "TOKEN" [] = Except.ok helpServer :=
  ⟨(newServer_atomic_on_failure failCreateBot "TOKEN" []).1 "create failed" rfl,
   (newServer_atomic_on_failure okCreateBot "TOKEN" []).2.1 okBot rfl⟩

end Tbot
